import Mathlib

set_option linter.unusedVariables false

/-!
Shallow embedding of the AIVENTORY forecasting / restock decision engine.

Source files embedded:
* `machine-learning/services/predict_product_arima.py`
  (`test_stationarity`, `make_stationary`, `fit_arima_model`,
   `forecast_product_sales`, `calculate_restock_suggestion`)
* `machine-learning/services/arima_restock_prediction.py`
  (`fit_arima_model` — the batch variant, `forecast_product`)

Modelling conventions:
* Python floats are modelled as `ℚ`; machine-integer quantities as `ℤ`/`ℕ`.
* Calls into external numerical libraries (the ADF stationarity test, the
  statsmodels ARIMA fit and its AIC, `numpy.std`) are modelled as oracle
  parameters: a `Bool` for the stationarity verdict, a function
  `ArimaOrder → Option ℚ` giving the AIC of a successful fit (`none` = the
  fit raised), an `Option (List ℚ)` for the raw forecast produced by the
  fitted model (`none` = no model was selected or forecasting raised), and
  a `ℚ` for the value of `numpy.std` over the clamped forecast.  All
  control flow surrounding those calls is embedded faithfully.
* Python `None` becomes `Option.none`; Python truthiness of
  `days_until_depletion` (where both `None` and `0` are falsy) is embedded
  explicitly at each use site.
-/

/-- ARIMA order (p, d, q). -/
abbrev ArimaOrder : Type := ℕ × ℕ × ℕ

/-- Python `int(x)` on a float: truncation toward zero. -/
def intTrunc (q : ℚ) : ℤ := if q < 0 then ⌈q⌉ else ⌊q⌋

/-- `pandas.Series.mean()`: sum divided by length (only used on nonempty data). -/
def listMean (l : List ℚ) : ℚ := l.sum / (l.length : ℚ)

/-- `series.max() if len(series) > 0 else 0`. -/
def listMax : List ℚ → ℚ
  | [] => 0
  | x :: xs => xs.foldl max x

/-- Minimum of a list of naturals with default 0 (dates are day indices). -/
def listMinNat : List ℕ → ℕ
  | [] => 0
  | x :: xs => xs.foldl min x

/-- Maximum of a list of naturals with default 0. -/
def listMaxNat : List ℕ → ℕ
  | [] => 0
  | x :: xs => xs.foldl max x

/-- `ts.diff().dropna()`: consecutive differences, first (undefined) entry
dropped. -/
def listDiff (ts : List ℚ) : List ℚ :=
  List.zipWith (fun a b => b - a) ts ts.tail

/-- `make_stationary(ts)` (both source files): first difference the series;
if the differenced series is empty, return the original unchanged.  (Over ℚ
a nonempty differenced series never consists entirely of undefined values,
so the `isna().all()` side condition is vacuous.) -/
def make_stationary (ts : List ℚ) : List ℚ :=
  let d := listDiff ts
  if 0 < d.length then d else ts

/-- The candidate-order list built in `fit_arima_model`
(`predict_product_arima.py` lines 57–72): for a series (after the
differencing decision) shorter than 12 observations, the hand-picked list of
six low-order candidates, in source order; otherwise the grid
`p ∈ range(min(max_p + 1, 3))` outer, `q ∈ range(min(max_q + 1, 3))` inner. -/
def param_combinations (n : ℕ) (d : ℕ) (max_p max_q : ℕ) : List ArimaOrder :=
  if n < 12 then
    [(0, d, 0), (1, d, 0), (0, d, 1), (1, d, 1), (2, d, 0), (0, d, 2)]
  else
    (List.range (min (max_p + 1) 3)).flatMap fun p =>
      (List.range (min (max_q + 1) 3)).map fun q => (p, d, q)

/-- The candidate-order list built in the batch `fit_arima_model`
(`arima_restock_prediction.py` lines 49–50): the full grid
`p ∈ range(max_p + 1)` outer, `q ∈ range(max_q + 1)` inner. -/
def param_combinations_full (d max_p max_q : ℕ) : List ArimaOrder :=
  (List.range (max_p + 1)).flatMap fun p =>
    (List.range (max_q + 1)).map fun q => (p, d, q)

/-- The grid-search loop shared by both `fit_arima_model` variants
(`predict_product_arima.py` lines 74–84): fold over the candidate list,
keeping the first candidate found with strictly smaller AIC than the best so
far (initial best AIC is `np.inf`, modelled by the `none` accumulator); a
candidate whose fit raises (`fit c = none`) is skipped. -/
def search_best (fit : ArimaOrder → Option ℚ) :
    List ArimaOrder → Option (ArimaOrder × ℚ) → Option (ArimaOrder × ℚ)
  | [], best => best
  | c :: rest, best =>
    match fit c with
    | none => search_best fit rest best
    | some a =>
      match best with
      | none => search_best fit rest (some (c, a))
      | some b =>
        if a < b.2 then search_best fit rest (some (c, a))
        else search_best fit rest (some b)

/-- `fit_arima_model(ts, max_p, max_d, max_q)` of `predict_product_arima.py`
(lines 33–86), returning the selected order and its AIC.  `stationary` is
the oracle verdict of `test_stationarity`; `fit` is the oracle giving each
candidate's AIC (or `none` when the fit raises).  `max_d` is accepted and
ignored, exactly as in the source. -/
def fit_arima_model (stationary : Bool) (fit : ArimaOrder → Option ℚ)
    (ts : List ℚ) (max_p max_d max_q : ℕ) : Option (ArimaOrder × ℚ) :=
  if ts.length < 6 then none
  else
    let dp : List ℚ × ℕ :=
      if stationary then (ts, 0)
      else
        let td := make_stationary ts
        if 3 ≤ td.length then (td, 1) else (ts, 0)
    search_best fit (param_combinations dp.1.length dp.2 max_p max_q) none

/-- `fit_arima_model(ts, max_p, max_d, max_q)` of
`arima_restock_prediction.py` (lines 32–61): refuses series shorter than 12
observations outright, then searches the full grid. -/
def fit_arima_model_batch (stationary : Bool) (fit : ArimaOrder → Option ℚ)
    (ts : List ℚ) (max_p max_d max_q : ℕ) : Option (ArimaOrder × ℚ) :=
  if ts.length < 12 then none
  else
    let _dp : List ℚ × ℕ :=
      if stationary then (ts, 0) else (make_stationary ts, 1)
    search_best fit (param_combinations_full _dp.2 max_p max_q) none

/-- The summary statistics of a forecast result as consumed by the restock
planner: `forecast_result.get('avg_daily_demand', 0)`,
`.get('max_daily_demand', ...)`, `.get('forecast_std', 0)` — the
`forecast_std` key is absent (`none`) in the non-ARIMA tiers. -/
structure ForecastStats where
  avg_daily_demand : ℚ
  max_daily_demand : ℚ
  forecast_std : Option ℚ
  deriving DecidableEq, Repr

/-- The restock recommendation record returned by
`calculate_restock_suggestion` (`predict_product_arima.py` lines 259–271). -/
structure RestockRec where
  suggested_quantity : ℤ
  days_until_stockout : Option ℤ
  daily_demand : ℚ
  max_daily_demand : ℚ
  reorder_point : ℤ
  safety_stock : ℤ
  optimal_stock : ℤ
  max_reasonable_stock : ℤ
  current_stock : ℤ
  overstocking_risk : String
  understocking_risk : String
  deriving DecidableEq, Repr

/-- Variability buffer (`predict_product_arima.py` lines 224–227):
`min(forecast_std * 1.5, avg_daily_demand * 0.3)` when `forecast_std > 0`,
else `avg_daily_demand * 0.2`. -/
def variability_buffer (avg std : ℚ) : ℚ :=
  if 0 < std then min (std * 1.5) (avg * 0.3) else avg * 0.2

/-- `days_until_depletion` (`predict_product_arima.py` lines 213–215):
`None` when demand is not positive; otherwise `ceil(current_stock / avg)`
when stock is positive, else 0. -/
def days_until_depletion (fr : ForecastStats) (current_stock : ℤ) : Option ℤ :=
  if 0 < fr.avg_daily_demand then
    some (if 0 < current_stock then ⌈(current_stock : ℚ) / fr.avg_daily_demand⌉ else 0)
  else none

/-- `required_stock` (`predict_product_arima.py` lines 219–229):
base requirement plus the variability buffer, both scaled by
`lead_time_days + safety_days`. -/
def required_stock (fr : ForecastStats) (lead_time_days safety_days : ℤ) : ℚ :=
  fr.avg_daily_demand * ((lead_time_days + safety_days : ℤ) : ℚ) +
    variability_buffer fr.avg_daily_demand (fr.forecast_std.getD 0) *
      ((lead_time_days + safety_days : ℤ) : ℚ)

/-- `max_reasonable_stock` (`predict_product_arima.py` lines 233–234):
`max(max_daily_demand * (total_days + 60), reorder_level * 5)`. -/
def max_reasonable_stock (fr : ForecastStats) (reorder_level lead_time_days safety_days : ℤ) : ℚ :=
  max (fr.max_daily_demand * (((lead_time_days + safety_days : ℤ) : ℚ) + 60))
    ((reorder_level : ℤ) * 5 : ℤ)

/-- `calculate_restock_suggestion(forecast_result, current_stock,
reorder_level, lead_time_days, safety_days)`
(`predict_product_arima.py` lines 203–271).  The Python guard
`if not forecast_result: return None` is input glue (we always receive real
stats); every numeric step is embedded in source order: initial suggestion,
overstock ceiling clamp (with Python `int()` truncation), minimum-order
floor, depletion override (with Python truthiness of
`days_until_depletion`), derived fields and risk labels. -/
def calculate_restock_suggestion (fr : ForecastStats)
    (current_stock reorder_level lead_time_days safety_days : ℤ) : RestockRec :=
  let avg := fr.avg_daily_demand
  let maxd := fr.max_daily_demand
  let days := days_until_depletion fr current_stock
  let total_days : ℤ := lead_time_days + safety_days
  let required : ℚ := required_stock fr lead_time_days safety_days
  let maxR : ℚ := max_reasonable_stock fr reorder_level lead_time_days safety_days
  let s0 : ℤ := max 0 ⌈required - (current_stock : ℚ)⌉
  let max_restock : ℚ := maxR - (current_stock : ℚ)
  let s1 : ℤ := if (s0 : ℚ) > max_restock then max 0 (intTrunc max_restock) else s0
  let s2 : ℤ := if s1 < reorder_level then reorder_level else s1
  let s3 : ℤ :=
    if (current_stock : ℚ) ≥ required then
      match days with
      | some n =>
        if n ≠ 0 ∧ n ≤ lead_time_days + 3 then
          max reorder_level ⌈avg * ((lead_time_days : ℚ) + 3)⌉
        else 0
      | none => 0
    else s2
  let optimal : ℤ := current_stock + s3
  { suggested_quantity := s3
    days_until_stockout := days
    daily_demand := avg
    max_daily_demand := maxd
    reorder_point := ⌈avg * ((total_days : ℤ) : ℚ)⌉
    safety_stock := ⌈avg * ((safety_days : ℤ) : ℚ)⌉
    optimal_stock := optimal
    max_reasonable_stock := intTrunc maxR
    current_stock := current_stock
    overstocking_risk := if (optimal : ℚ) ≤ maxR then "low" else "medium"
    understocking_risk :=
      match days with
      | some n =>
        if n ≠ 0 ∧ total_days < n then "low"
        else if n ≠ 0 ∧ n ≤ lead_time_days then "high"
        else "medium"
      | none => "medium" }

/-- A product's transaction rows after date parsing and product filtering
(`predict_product_arima.py` lines 94–98): each row is a (transaction day
index, transaction_qty) pair.  Day indices are naturals at daily cadence. -/
abbrev TxList : Type := List (ℕ × ℚ)

/-- `product_data.groupby('transaction_date')['transaction_qty'].sum()`
(line 104): one summed value per distinct transaction date (order of the
distinct dates is irrelevant to every consumer: only sum, max, mean and
length are taken). -/
def groupedSales (txs : TxList) : List ℚ :=
  ((txs.map Prod.fst).dedup).map fun d => ((txs.filter fun t => t.1 = d).map Prod.snd).sum

/-- The gap-filled daily series (lines 114–116):
`daily_sales.reindex(pd.date_range(min, max, freq='D'), fill_value=0)` —
one entry per day from the earliest to the latest transaction date, each the
summed quantity of that day (0 when the day has no transaction). -/
def dailySales (txs : TxList) : List ℚ :=
  match txs with
  | [] => []
  | _ :: _ =>
    let lo := listMinNat (txs.map Prod.fst)
    let hi := listMaxNat (txs.map Prod.fst)
    (List.range (hi - lo + 1)).map fun i =>
      ((txs.filter fun t => t.1 = lo + i).map Prod.snd).sum

/-- The forecast-result record built by `forecast_product_sales`
(`predict_product_arima.py` lines 139–198).  `forecast_std` is `none` when
the tier's dictionary carries no `forecast_std` key. -/
structure ForecastResult where
  forecast_demand : List ℚ
  method : String
  avg_daily_demand : ℚ
  max_daily_demand : ℚ
  forecast_std : Option ℚ
  confidence_score : ℕ
  deriving DecidableEq, Repr

/-- `forecast_product_sales(product_id, csv_path, days_ahead)`
(`predict_product_arima.py` lines 88–201), from the point where
`product_data` (the product's parsed transaction rows, `txs`) is in hand.
`arima : Option (List ℚ)` is the oracle for the fitted-model forecast:
`none` when `fit_arima_model` selected no model or `model.forecast` raised
(both route to the same fallback); `some raw` the raw forecast values.
`stdO` is the oracle value of `np.std` over the clamped forecast.
Tier structure, thresholds, constants and clamping follow the source. -/
def forecast_product_sales (arima : Option (List ℚ)) (stdO : ℚ)
    (txs : TxList) (days_ahead : ℕ) : Option ForecastResult :=
  if txs.length < 3 then none
  else if (groupedSales txs).length = 0 then none
  else
    let ds := dailySales txs
    let total_sales := (groupedSales txs).sum
    let total_transactions := txs.length
    let total_days := listMaxNat (txs.map Prod.fst) - listMinNat (txs.map Prod.fst) + 1
    let max_daily := listMax (groupedSales txs)
    if 6 ≤ ds.length then
      match arima with
      | some raw =>
        let forecast := raw.map fun f => max 0 f
        some { forecast_demand := forecast
               method := "ARIMA"
               avg_daily_demand := listMean forecast
               max_daily_demand := max_daily
               forecast_std := some (if 1 < forecast.length then stdO else 0)
               confidence_score := 85 }
      | none =>
        if 7 ≤ ds.length then
          let recent := ds.drop (ds.length - min 30 ds.length)
          let avg := listMean recent
          some { forecast_demand := List.replicate days_ahead (max 0 avg)
                 method := "weighted_average"
                 avg_daily_demand := avg
                 max_daily_demand := max_daily
                 forecast_std := none
                 confidence_score := 70 }
        else
          let avg := listMean ds
          some { forecast_demand := List.replicate days_ahead (max 0 avg)
                 method := "moving_average"
                 avg_daily_demand := avg
                 max_daily_demand := max_daily
                 forecast_std := none
                 confidence_score := 68 }
    else
      let active_days := (ds.filter fun x => 0 < x).length
      let avg1 := if 0 < active_days then total_sales / (active_days : ℚ) else listMean ds
      let avg2 :=
        if 0 < total_transactions ∧ 0 < total_days then
          max avg1 (((total_transactions : ℚ) / (total_days : ℚ)) *
            (total_sales / (total_transactions : ℚ)))
        else avg1
      some { forecast_demand := List.replicate days_ahead (max 0 avg2)
             method := "intelligent_average"
             avg_daily_demand := avg2
             max_daily_demand := max_daily
             forecast_std := none
             confidence_score := 65 }

/-- The outcome of the try-block of `forecast_product`
(`arima_restock_prediction.py` lines 68–90), as an oracle:
`noModel` — `fit_arima_model` returned `None`;
`raised`  — an exception escaped the try-block (caught at line 91);
`ok raw`  — a model was selected and forecast to the raw values `raw`. -/
inductive BatchArimaOutcome : Type
  | noModel : BatchArimaOutcome
  | raised : BatchArimaOutcome
  | ok : List ℚ → BatchArimaOutcome

/-- `forecast_product(product_id, product_name, monthly_sales, months_ahead)`
(`arima_restock_prediction.py` lines 63–99): refuse series shorter than 6;
with no model, repeat the plain mean (method `moving_average`); on an
exception, repeat the plain mean (method `average`); with a model, clamp the
raw forecast to non-negative (method `ARIMA`). -/
def forecast_product (oc : BatchArimaOutcome) (monthly_sales : List ℚ)
    (months_ahead : ℕ) : Option (List ℚ × String) :=
  if monthly_sales.length < 6 then none
  else
    match oc with
    | .noModel => some (List.replicate months_ahead (listMean monthly_sales), "moving_average")
    | .raised => some (List.replicate months_ahead (listMean monthly_sales), "average")
    | .ok raw => some (raw.map fun f => max 0 f, "ARIMA")

/-! ## Claims -/

/-- C6: for every input with fewer than 3 raw observations (transaction
rows), the forecaster yields no result (`none`) — the hard floor below which
no estimate is attempted — routed as an absent result, not an exception. -/
theorem c6_forecast_refused_below_three_rows (arima : Option (List ℚ)) (stdO : ℚ)
    (txs : TxList) (days_ahead : ℕ) (h : txs.length < 3) :
    forecast_product_sales arima stdO txs days_ahead = none := by
  unfold forecast_product_sales
  simp [h]

theorem c6_witness :
    [((0 : ℕ), (5 : ℚ)), (1, 2)].length < 3 ∧
      forecast_product_sales none 0 [((0 : ℕ), (5 : ℚ)), (1, 2)] 30 = none :=
  ⟨by decide, c6_forecast_refused_below_three_rows none 0 _ 30 (by decide)⟩

/-- C1 (counterexample): with avgDailyDemand = 0 (all-zero forecast, all-zero
history, zero std), currentStock = 0 and reorderLevel = 10, the planner's
suggested quantity is 0, not 10: requiredStock is 0, so the depletion
override applies (`0 >= 0`) and `days_until_depletion` is `None` (falsy), so
the override suppresses the order entirely. -/
theorem c1_counterexample :
    (calculate_restock_suggestion ⟨0, 0, some 0⟩ 0 10 7 14).suggested_quantity = 0 ∧
      (calculate_restock_suggestion ⟨0, 0, some 0⟩ 0 10 7 14).suggested_quantity ≠ 10 := by
  norm_num [calculate_restock_suggestion, required_stock, variability_buffer,
    days_until_depletion, max_reasonable_stock, intTrunc]

/-- C1 (amended): with avgDailyDemand = 0, the variability buffer and hence
requiredStock are 0, so for every nonnegative currentStock the depletion
override applies; daysUntilDepletion is undefined (`None`), so the suggested
quantity is 0 regardless of currentStock and reorderLevel — in particular 0
(not reorderLevel) at currentStock = 0, reorderLevel = 10. -/
theorem c1_amended_zero_demand_suggests_zero (md : ℚ) (std : Option ℚ)
    (cs rl lt sd : ℤ) (h : 0 ≤ cs) :
    (calculate_restock_suggestion ⟨0, md, std⟩ cs rl lt sd).suggested_quantity = 0 := by
  have hb : variability_buffer 0 (std.getD 0) = 0 := by
    unfold variability_buffer
    split
    · rename_i hs
      rw [show (0 : ℚ) * 0.3 = 0 by norm_num, min_eq_right (by positivity)]
    · norm_num
  have hreq : required_stock ⟨0, md, std⟩ lt sd = 0 := by
    unfold required_stock
    simp [hb]
  unfold calculate_restock_suggestion days_until_depletion
  simp only [hreq]
  norm_num [Int.cast_nonneg.mpr h]

theorem c1_witness :
    (0 : ℤ) ≤ 0 ∧
      (calculate_restock_suggestion ⟨0, 0, some 0⟩ 0 10 7 14).suggested_quantity = 0 :=
  ⟨le_refl 0, c1_amended_zero_demand_suggests_zero 0 (some 0) 0 10 7 14 (le_refl 0)⟩

/-- C3 (counterexample): the claim quantifies over pairs of forecastStd
values "with the smaller one ≥ 0".  Taking the pair (0, 1/100) with
avgDailyDemand = 1: the buffer at std = 0 is the 20% default 1/5, but at
std = 1/100 it is 1.5·(1/100) = 3/200 < 1/5 — increasing forecastStd from 0
to 1/100 strictly decreases the buffer. -/
theorem c3_counterexample :
    (0 : ℚ) ≤ 0 ∧ (0 : ℚ) ≤ 1 / 100 ∧
      variability_buffer 1 (1 / 100) < variability_buffer 1 0 := by
  norm_num [variability_buffer]

/-- C3 (amended): with the smaller forecastStd strictly positive (so that the
20%-default branch is not involved), increasing forecastStd never decreases
the variability buffer, and once the 0.3·avg cap is reached at the smaller
std the buffer stays constant. -/
theorem c3_amended_buffer_monotone_for_positive_std (avg s1 s2 : ℚ)
    (h1 : 0 < s1) (h12 : s1 ≤ s2) :
    variability_buffer avg s1 ≤ variability_buffer avg s2 ∧
      (avg * 0.3 ≤ s1 * 1.5 → variability_buffer avg s2 = variability_buffer avg s1) := by
  have h2 : 0 < s2 := lt_of_lt_of_le h1 h12
  unfold variability_buffer
  rw [if_pos h1, if_pos h2]
  constructor
  · exact min_le_min (by linarith) (le_refl _)
  · intro hc
    rw [min_eq_right hc, min_eq_right (le_trans hc (by linarith))]

theorem c3_witness :
    (0 : ℚ) < 1 / 2 ∧ (1 : ℚ) / 2 ≤ 1 ∧
      (variability_buffer 1 (1 / 2) ≤ variability_buffer 1 1 ∧
        ((1 : ℚ) * 0.3 ≤ 1 / 2 * 1.5 →
          variability_buffer 1 1 = variability_buffer 1 (1 / 2))) :=
  ⟨by norm_num, by norm_num,
    c3_amended_buffer_monotone_for_positive_std 1 (1 / 2) 1 (by norm_num) (by norm_num)⟩

/-- C4 (counterexample): with avgDailyDemand = 1 and currentStock = 0 the
planner computes daysUntilDepletion = 0, which is ≤ leadTimeDays = 7, yet the
understocking risk label is "medium", not "high": `days_until_depletion` is 0
and Python's `days_until_depletion and days_until_depletion <= lead_time_days`
is falsy at 0. -/
theorem c4_counterexample :
    (calculate_restock_suggestion ⟨1, 1, none⟩ 0 10 7 14).days_until_stockout = some 0 ∧
      (calculate_restock_suggestion ⟨1, 1, none⟩ 0 10 7 14).understocking_risk = "medium" ∧
      ("medium" : String) ≠ "high" := by
  refine ⟨?_, ?_, by decide⟩ <;>
    norm_num [calculate_restock_suggestion, required_stock, variability_buffer,
      days_until_depletion, max_reasonable_stock, intTrunc]

/-- C4 (amended): the overstocking label is "low" iff optimalStock ≤
maxReasonableStock and "medium" otherwise.  The understocking label is "low"
when daysUntilDepletion is defined, nonzero and > leadTimeDays + safetyDays;
"high" when it is defined, NONZERO and ≤ leadTimeDays; and "medium" otherwise
— in particular "medium" (not "high") when daysUntilDepletion is 0 or
undefined, because 0 and None are both falsy in the source's guards.
Scenario D holds: when currentStock already covers requiredStock and
daysUntilDepletion > leadTimeDays + safetyDays, the suggested quantity is 0
and the understocking label is "low". -/
theorem c4_amended_risk_labels (fr : ForecastStats) (cs rl lt sd : ℤ) :
    ((calculate_restock_suggestion fr cs rl lt sd).overstocking_risk =
      if ((calculate_restock_suggestion fr cs rl lt sd).optimal_stock : ℚ) ≤
          max_reasonable_stock fr rl lt sd then "low" else "medium") ∧
    ((days_until_depletion fr cs = none ∨ days_until_depletion fr cs = some 0) →
      (calculate_restock_suggestion fr cs rl lt sd).understocking_risk = "medium") ∧
    (∀ n : ℤ, days_until_depletion fr cs = some n → n ≠ 0 → lt + sd < n →
      (calculate_restock_suggestion fr cs rl lt sd).understocking_risk = "low") ∧
    (∀ n : ℤ, days_until_depletion fr cs = some n → n ≠ 0 → 0 ≤ sd → n ≤ lt →
      (calculate_restock_suggestion fr cs rl lt sd).understocking_risk = "high") ∧
    (∀ n : ℤ, days_until_depletion fr cs = some n → lt < n → n ≤ lt + sd →
      (calculate_restock_suggestion fr cs rl lt sd).understocking_risk = "medium") ∧
    (∀ n : ℤ, (cs : ℚ) ≥ required_stock fr lt sd → days_until_depletion fr cs = some n →
      0 ≤ lt → 3 ≤ sd → lt + sd < n →
      (calculate_restock_suggestion fr cs rl lt sd).suggested_quantity = 0 ∧
        (calculate_restock_suggestion fr cs rl lt sd).understocking_risk = "low") := by
  refine ⟨rfl, ?_, ?_, ?_, ?_, ?_⟩
  · rintro (h | h) <;> simp [calculate_restock_suggestion, h]
  · intro n h hne hgt
    simp only [calculate_restock_suggestion, h]
    rw [if_pos ⟨hne, hgt⟩]
  · intro n h hne hsd hle
    simp only [calculate_restock_suggestion, h]
    rw [if_neg (fun hc => absurd hc.2 (by omega)), if_pos ⟨hne, hle⟩]
  · intro n h hlt hle
    simp only [calculate_restock_suggestion, h]
    rw [if_neg (fun hc => absurd hc.2 (by omega)),
      if_neg (fun hc => absurd hc.2 (by omega))]
  · intro n hreq h hlt hsd hgt
    constructor
    · simp only [calculate_restock_suggestion, h]
      rw [if_pos hreq, if_neg (fun hc => absurd hc.2 (by omega))]
    · simp only [calculate_restock_suggestion, h]
      rw [if_pos ⟨by omega, hgt⟩]

/-- The minimum-order floor (source line 245–246) viewed on its own:
whatever quantity the ceiling clamp produced, the floored value is at least
`reorder_level`. -/
theorem reorder_floor_ge (x rl : ℤ) : rl ≤ if x < rl then rl else x := by
  split <;> omega

/-- C9: the minimum-order floor runs after the overstock ceiling clamp.
Whenever currentStock < requiredStock (so the depletion override does not
fire), the suggested quantity is ≥ reorderLevel — even when reorderLevel
exceeds maxReasonableStock − currentStock.  Concretely, at avgDailyDemand =
10, maxDailyDemand = 1, std = 0, currentStock = 100, reorderLevel = 10
(lead 7, safety 14): maxReasonable = 81, so the ceiling clamps the order to
0, the floor then raises it back to 10, optimalStock = 110 > 81 and the
overstocking label is "medium" — the order is not capped. -/
theorem c9_floor_overrides_ceiling (fr : ForecastStats) (cs rl lt sd : ℤ)
    (h : (cs : ℚ) < required_stock fr lt sd) :
    rl ≤ (calculate_restock_suggestion fr cs rl lt sd).suggested_quantity ∧
      (calculate_restock_suggestion ⟨10, 1, some 0⟩ 100 10 7 14).suggested_quantity = 10 ∧
      max_reasonable_stock ⟨10, 1, some 0⟩ 10 7 14 - 100 < 10 ∧
      ((calculate_restock_suggestion ⟨10, 1, some 0⟩ 100 10 7 14).optimal_stock : ℚ) >
        max_reasonable_stock ⟨10, 1, some 0⟩ 10 7 14 ∧
      (calculate_restock_suggestion ⟨10, 1, some 0⟩ 100 10 7 14).overstocking_risk = "medium" := by
  refine ⟨?_, ?_, ?_, ?_, ?_⟩
  · simp only [calculate_restock_suggestion]
    rw [if_neg (not_le.mpr h)]
    exact reorder_floor_ge _ rl
  all_goals
    have h19 : ⌈(-19 : ℚ)⌉ = -19 := by norm_num [Int.ceil_eq_iff]
    norm_num [calculate_restock_suggestion, required_stock, variability_buffer,
      days_until_depletion, max_reasonable_stock, intTrunc, h19]

theorem c9_witness :
    (100 : ℚ) < required_stock ⟨10, 1, some 0⟩ 7 14 ∧
      (10 : ℤ) ≤ (calculate_restock_suggestion ⟨10, 1, some 0⟩ 100 10 7 14).suggested_quantity :=
  ⟨by norm_num [required_stock, variability_buffer],
    (c9_floor_overrides_ceiling ⟨10, 1, some 0⟩ 100 10 7 14
      (by norm_num [required_stock, variability_buffer])).1⟩

/-- The mean of a list of nonnegative rationals is nonnegative. -/
theorem listMean_nonneg {l : List ℚ} (h : ∀ x ∈ l, 0 ≤ x) : 0 ≤ listMean l :=
  div_nonneg (List.sum_nonneg h) (Nat.cast_nonneg _)

/-- Every entry of the gap-filled daily series of nonnegative transaction
quantities is nonnegative. -/
theorem dailySales_nonneg {txs : TxList} (h : ∀ t ∈ txs, 0 ≤ t.2) :
    ∀ v ∈ dailySales txs, 0 ≤ v := by
  intro v hv
  unfold dailySales at hv
  match txs, hv with
  | t0 :: rest, hv =>
    simp only [List.mem_map] at hv
    obtain ⟨i, _, rfl⟩ := hv
    refine List.sum_nonneg ?_
    intro x hx
    simp only [List.mem_map, List.mem_filter] at hx
    obtain ⟨t, ⟨ht, _⟩, rfl⟩ := hx
    exact h t ht

/-- C2: every value of every produced forecast sequence is ≥ 0 — in each
tier of `forecast_product_sales` (ARIMA, weighted_average, moving_average,
intelligent_average) unconditionally, and in each tier of the batch
`forecast_product` (ARIMA, moving_average, average) for the nonnegative
series the ingestion contract supplies (sums of nonnegative
`transaction_qty`). -/
theorem c2_forecast_values_nonneg :
    (∀ (arima : Option (List ℚ)) (stdO : ℚ) (txs : TxList) (da : ℕ)
      (r : ForecastResult), forecast_product_sales arima stdO txs da = some r →
        ∀ v ∈ r.forecast_demand, 0 ≤ v) ∧
    (∀ (oc : BatchArimaOutcome) (ms : List ℚ) (ma : ℕ) (r : List ℚ × String),
      (∀ x ∈ ms, 0 ≤ x) → forecast_product oc ms ma = some r → ∀ v ∈ r.1, 0 ≤ v) := by
  constructor
  · intro arima stdO txs da r h v hv
    simp only [forecast_product_sales] at h
    split at h
    · exact Option.noConfusion h
    split at h
    · exact Option.noConfusion h
    split at h
    · split at h
      · injection h with h
        subst h
        simp only [List.mem_map] at hv
        obtain ⟨f, _, rfl⟩ := hv
        exact le_max_left 0 f
      · split at h
        · injection h with h
          subst h
          simp only [List.mem_replicate] at hv
          exact hv.2 ▸ le_max_left 0 _
        · injection h with h
          subst h
          simp only [List.mem_replicate] at hv
          exact hv.2 ▸ le_max_left 0 _
    · injection h with h
      subst h
      simp only [List.mem_replicate] at hv
      exact hv.2 ▸ le_max_left 0 _
  · intro oc ms ma r hms h v hv
    simp only [forecast_product] at h
    split at h
    · exact Option.noConfusion h
    cases oc with
    | noModel =>
      injection h with h
      subst h
      simp only [List.mem_replicate] at hv
      exact hv.2 ▸ listMean_nonneg hms
    | raised =>
      injection h with h
      subst h
      simp only [List.mem_replicate] at hv
      exact hv.2 ▸ listMean_nonneg hms
    | ok raw =>
      injection h with h
      subst h
      simp only [List.mem_map] at hv
      obtain ⟨f, _, rfl⟩ := hv
      exact le_max_left 0 f

theorem c2_witness :
    (∀ x ∈ [(0 : ℚ), 1, 2, 3, 4, 5], 0 ≤ x) ∧ (0 : ℚ) ≤ 15 / 6 :=
  ⟨by norm_num,
    c2_forecast_values_nonneg.2 .noModel [0, 1, 2, 3, 4, 5] 2
      (List.replicate 2 (15 / 6), "moving_average") (by norm_num)
      (by norm_num [forecast_product, listMean]) (15 / 6) (by simp)⟩

/-- C8: when the ARIMA oracle yields nothing (no candidate selected, or
forecast generation failed), with at least 7 gap-filled observations the
result repeats the average of the most recent `min(30, N)` observations for
every horizon step, method `weighted_average`, confidence 70; with exactly 6
observations it repeats the average of all observations, method
`moving_average`, confidence 68 — the confidence of each tier a fixed
constant.  (Nonnegative quantities make the `max(0, ·)` clamp the identity,
so the repeated value is the average itself.) -/
theorem c8_fallback_average_tiers (txs : TxList) (da : ℕ)
    (hpos : ∀ t ∈ txs, 0 ≤ t.2) (h3 : 3 ≤ txs.length) :
    (7 ≤ (dailySales txs).length →
      forecast_product_sales none 0 txs da = some
        { forecast_demand := List.replicate da (listMean ((dailySales txs).drop
            ((dailySales txs).length - min 30 (dailySales txs).length)))
          method := "weighted_average"
          avg_daily_demand := listMean ((dailySales txs).drop
            ((dailySales txs).length - min 30 (dailySales txs).length))
          max_daily_demand := listMax (groupedSales txs)
          forecast_std := none
          confidence_score := 70 }) ∧
    ((dailySales txs).length = 6 →
      forecast_product_sales none 0 txs da = some
        { forecast_demand := List.replicate da (listMean (dailySales txs))
          method := "moving_average"
          avg_daily_demand := listMean (dailySales txs)
          max_daily_demand := listMax (groupedSales txs)
          forecast_std := none
          confidence_score := 68 }) := by
  have hne : ¬ txs.length < 3 := by omega
  have htxs : txs ≠ [] := by
    intro e
    subst e
    simp at h3
  have hg : ¬ (groupedSales txs).length = 0 := by
    simp only [groupedSales, List.length_map, List.length_eq_zero, List.dedup_eq_nil,
      List.map_eq_nil_iff]
    exact htxs
  have hmean : ∀ l : List ℚ, (∀ v ∈ l, 0 ≤ v) → max 0 (listMean l) = listMean l :=
    fun l hl => max_eq_right (listMean_nonneg hl)
  constructor
  · intro h7
    have h6 : 6 ≤ (dailySales txs).length := by omega
    simp only [forecast_product_sales]
    rw [if_neg hne, if_neg hg, if_pos h6, if_pos h7,
      hmean _ (fun v hv => dailySales_nonneg hpos v (List.mem_of_mem_drop hv))]
  · intro hlen
    have h6 : 6 ≤ (dailySales txs).length := by omega
    have h7 : ¬ 7 ≤ (dailySales txs).length := by omega
    simp only [forecast_product_sales]
    rw [if_neg hne, if_neg hg, if_pos h6, if_neg h7,
      hmean _ (dailySales_nonneg hpos)]

theorem c8_witness :
    7 ≤ (dailySales [((0 : ℕ), (2 : ℚ)), (3, 4), (6, 6)]).length ∧
      forecast_product_sales none 0 [((0 : ℕ), (2 : ℚ)), (3, 4), (6, 6)] 5 = some
        { forecast_demand := List.replicate 5 (listMean
            ((dailySales [((0 : ℕ), (2 : ℚ)), (3, 4), (6, 6)]).drop
              ((dailySales [((0 : ℕ), (2 : ℚ)), (3, 4), (6, 6)]).length -
                min 30 (dailySales [((0 : ℕ), (2 : ℚ)), (3, 4), (6, 6)]).length)))
          method := "weighted_average"
          avg_daily_demand := listMean
            ((dailySales [((0 : ℕ), (2 : ℚ)), (3, 4), (6, 6)]).drop
              ((dailySales [((0 : ℕ), (2 : ℚ)), (3, 4), (6, 6)]).length -
                min 30 (dailySales [((0 : ℕ), (2 : ℚ)), (3, 4), (6, 6)]).length))
          max_daily_demand := listMax (groupedSales [((0 : ℕ), (2 : ℚ)), (3, 4), (6, 6)])
          forecast_std := none
          confidence_score := 70 } :=
  ⟨by decide,
    (c8_fallback_average_tiers [((0 : ℕ), (2 : ℚ)), (3, 4), (6, 6)] 5
      (by norm_num) (by norm_num)).1 (by decide)⟩

/-- C5 (counterexample): for a 12-observation series with the default bounds
maxP = maxQ = 3, the claim requires the exhaustive grid p ∈ [0,3] × q ∈
[0,3]; but the enumeration caps both coordinates at 2
(`range(min(max_p + 1, 3))`), so the candidate (3, d, 0) — with 3 ≤ maxP —
is never enumerated. -/
theorem c5_counterexample :
    ¬ (12 : ℕ) < 12 ∧ (3 : ℕ) ≤ 3 ∧ (3, 0, 0) ∉ param_combinations 12 0 3 3 := by
  decide

/-- C5 (amended): in `predict_product_arima.py`, a series with ≥ 12
observations (after the differencing decision) gets the grid
p ∈ [0, min(maxP, 2)] × q ∈ [0, min(maxQ, 2)] (with the fixed d), and every
shorter series gets exactly the six candidates (0,d,0), (1,d,0), (0,d,1),
(1,d,1), (2,d,0), (0,d,2) in that order.  In `arima_restock_prediction.py`,
a series with ≥ 12 observations gets the full grid p ∈ [0,maxP] × q ∈
[0,maxQ], and a shorter series is refused outright (`None`) instead of
receiving the six candidates. -/
theorem c5_amended_candidate_enumeration :
    (∀ n d mp mq p dv q, 12 ≤ n →
      ((p, dv, q) ∈ param_combinations n d mp mq ↔
        dv = d ∧ p ≤ min mp 2 ∧ q ≤ min mq 2)) ∧
    (∀ n d mp mq, n < 12 →
      param_combinations n d mp mq =
        [(0, d, 0), (1, d, 0), (0, d, 1), (1, d, 1), (2, d, 0), (0, d, 2)]) ∧
    (∀ d mp mq p dv q,
      (p, dv, q) ∈ param_combinations_full d mp mq ↔ dv = d ∧ p ≤ mp ∧ q ≤ mq) ∧
    (∀ (stationary : Bool) (fit : ArimaOrder → Option ℚ) (ts : List ℚ) (mp md mq : ℕ),
      ts.length < 12 → fit_arima_model_batch stationary fit ts mp md mq = none) := by
  refine ⟨?_, ?_, ?_, ?_⟩
  · intro n d mp mq p dv q h12
    simp only [param_combinations, if_neg (by omega : ¬ n < 12), List.mem_flatMap,
      List.mem_map, List.mem_range, Prod.mk.injEq]
    constructor
    · rintro ⟨p', hp', q', hq', rfl, rfl, rfl⟩
      omega
    · rintro ⟨rfl, hp, hq⟩
      exact ⟨p, by omega, q, by omega, rfl, rfl, rfl⟩
  · intro n d mp mq h
    simp [param_combinations, h]
  · intro d mp mq p dv q
    simp only [param_combinations_full, List.mem_flatMap, List.mem_map, List.mem_range,
      Prod.mk.injEq]
    constructor
    · rintro ⟨p', hp', q', hq', rfl, rfl, rfl⟩
      omega
    · rintro ⟨rfl, hp, hq⟩
      exact ⟨p, by omega, q, by omega, rfl, rfl, rfl⟩
  · intro stationary fit ts mp md mq h
    simp [fit_arima_model_batch, h]

/-- C10: the 12-observation threshold choosing between the grid and the
six-candidate set is evaluated on the series after differencing: a
non-stationary (oracle verdict false) series of exactly 12 gap-filled
observations differences to 11 observations, and the selection runs over the
reduced six-candidate set (with d = 1), not the grid. -/
theorem c10_threshold_counted_after_differencing (fit : ArimaOrder → Option ℚ)
    (ts : List ℚ) (mp md mq : ℕ) (h : ts.length = 12) :
    (make_stationary ts).length = 11 ∧
      fit_arima_model false fit ts mp md mq =
        search_best fit [(0, 1, 0), (1, 1, 0), (0, 1, 1), (1, 1, 1), (2, 1, 0), (0, 1, 2)]
          none := by
  have hd : (listDiff ts).length = 11 := by
    simp [listDiff, List.length_zipWith, h]
  have hms : (make_stationary ts).length = 11 := by
    simp [make_stationary, hd]
  refine ⟨hms, ?_⟩
  simp [fit_arima_model, hms, param_combinations, (by omega : ¬ ts.length < 6)]
  intro h6
  exact absurd h6 (by omega)

theorem c10_witness :
    (List.replicate 12 (0 : ℚ)).length = 12 ∧
      ((make_stationary (List.replicate 12 (0 : ℚ))).length = 11 ∧
        fit_arima_model false (fun _ => none) (List.replicate 12 (0 : ℚ)) 3 2 3 =
          search_best (fun _ => none)
            [(0, 1, 0), (1, 1, 0), (0, 1, 1), (1, 1, 1), (2, 1, 0), (0, 1, 2)] none) :=
  ⟨by decide,
    c10_threshold_counted_after_differencing (fun _ => none) (List.replicate 12 (0 : ℚ))
      3 2 3 (by decide)⟩

/-- The search loop run from a `some` accumulator never returns `none`. -/
theorem search_best_some_ne_none (fit : ArimaOrder → Option ℚ) :
    ∀ (cs : List ArimaOrder) (b : ArimaOrder × ℚ),
      search_best fit cs (some b) ≠ none := by
  intro cs
  induction cs with
  | nil => intro b h; exact Option.noConfusion h
  | cons c0 rest ih =>
    intro b
    cases hfc : fit c0 with
    | none =>
      simp only [search_best, hfc]
      exact ih b
    | some a0 =>
      simp only [search_best, hfc]
      by_cases hlt : a0 < b.2
      · rw [if_pos hlt]
        exact ih (c0, a0)
      · rw [if_neg hlt]
        exact ih b

/-- Characterization of the search loop from an arbitrary `some`
accumulator: the result is either the accumulator itself (when no listed
candidate fits with a strictly smaller AIC) or the first listed candidate
achieving the overall minimum AIC, which is strictly below the
accumulator's. -/
theorem search_best_acc_characterization (fit : ArimaOrder → Option ℚ) :
    ∀ (cs : List ArimaOrder) (b r : ArimaOrder × ℚ),
      search_best fit cs (some b) = some r →
      (r = b ∧ ∀ c' ∈ cs, ∀ a', fit c' = some a' → b.2 ≤ a') ∨
      (fit r.1 = some r.2 ∧ r.2 < b.2 ∧
        ∃ l1 l2, cs = l1 ++ r.1 :: l2 ∧
          (∀ c' ∈ l1, ∀ a', fit c' = some a' → r.2 < a') ∧
          (∀ c' ∈ l2, ∀ a', fit c' = some a' → r.2 ≤ a')) := by
  intro cs
  induction cs with
  | nil =>
    intro b r h
    simp only [search_best, Option.some.injEq] at h
    exact Or.inl ⟨h.symm ▸ rfl, by simp⟩
  | cons c0 rest ih =>
    intro b r h
    cases hfc : fit c0 with
    | none =>
      simp only [search_best, hfc] at h
      rcases ih b r h with ⟨hrb, hall⟩ | ⟨hf, hlt, l1, l2, heq, h1, h2⟩
      · refine Or.inl ⟨hrb, ?_⟩
        intro c' hc' a' ha'
        rcases List.mem_cons.mp hc' with rfl | hc'
        · exact absurd ha' (hfc ▸ Option.noConfusion)
        · exact hall c' hc' a' ha'
      · refine Or.inr ⟨hf, hlt, c0 :: l1, l2, by simp [heq], ?_, h2⟩
        intro c' hc' a' ha'
        rcases List.mem_cons.mp hc' with rfl | hc'
        · exact absurd ha' (hfc ▸ Option.noConfusion)
        · exact h1 c' hc' a' ha'
    | some a0 =>
      simp only [search_best, hfc] at h
      by_cases hlt : a0 < b.2
      · rw [if_pos hlt] at h
        rcases ih (c0, a0) r h with ⟨hrb, hall⟩ | ⟨hf, hlt2, l1, l2, heq, h1, h2⟩
        · subst hrb
          refine Or.inr ⟨hfc, hlt, [], rest, rfl, by simp, ?_⟩
          intro c' hc' a' ha'
          exact hall c' hc' a' ha'
        · refine Or.inr ⟨hf, lt_trans hlt2 hlt, c0 :: l1, l2, by simp [heq], ?_, h2⟩
          intro c' hc' a' ha'
          rcases List.mem_cons.mp hc' with rfl | hc'
          · rw [hfc] at ha'
            injection ha' with ha'
            exact ha' ▸ hlt2
          · exact h1 c' hc' a' ha'
      · rw [if_neg hlt] at h
        rcases ih (b.1, b.2) r h with ⟨hrb, hall⟩ | ⟨hf, hlt2, l1, l2, heq, h1, h2⟩
        · refine Or.inl ⟨hrb, ?_⟩
          intro c' hc' a' ha'
          rcases List.mem_cons.mp hc' with rfl | hc'
          · rw [hfc] at ha'
            injection ha' with ha'
            exact ha' ▸ le_of_not_lt hlt
          · exact hall c' hc' a' ha'
        · refine Or.inr ⟨hf, hlt2, c0 :: l1, l2, by simp [heq], ?_, h2⟩
          intro c' hc' a' ha'
          rcases List.mem_cons.mp hc' with rfl | hc'
          · rw [hfc] at ha'
            injection ha' with ha'
            subst ha'
            exact lt_of_lt_of_le hlt2 (le_of_not_lt hlt)
          · exact h1 c' hc' a' ha'

/-- C7: for every candidate set, the selection loop returns the candidate
with the minimum AIC among the candidates whose fit succeeds, ties resolved
in favor of the first-found candidate in the iteration order (every earlier
candidate either failed to fit or has strictly larger AIC); a candidate
whose fit raises is skipped without aborting the search; and the result is
`None` if and only if every candidate failed to fit. -/
theorem c7_min_aic_first_found (fit : ArimaOrder → Option ℚ) (cs : List ArimaOrder) :
    (search_best fit cs none = none ↔ ∀ c ∈ cs, fit c = none) ∧
    (∀ c a, search_best fit cs none = some (c, a) →
      fit c = some a ∧
      (∀ c' ∈ cs, ∀ a', fit c' = some a' → a ≤ a') ∧
      ∃ l1 l2, cs = l1 ++ c :: l2 ∧
        ∀ c' ∈ l1, ∀ a', fit c' = some a' → a < a') := by
  induction cs with
  | nil =>
    exact ⟨by simp [search_best], fun c a h => Option.noConfusion h⟩
  | cons c0 rest ih =>
    constructor
    · cases hfc : fit c0 with
      | none =>
        simp only [search_best, hfc]
        rw [ih.1]
        constructor
        · intro hall c' hc' 
          rcases List.mem_cons.mp hc' with rfl | hc'
          · exact hfc
          · exact hall c' hc'
        · intro hall c' hc'
          exact hall c' (List.mem_cons_of_mem c0 hc')
      | some a0 =>
        simp only [search_best, hfc]
        constructor
        · intro hnone
          exact absurd hnone (search_best_some_ne_none fit rest (c0, a0))
        · intro hall
          exact absurd (hall c0 (List.mem_cons_self c0 rest)) (by simp [hfc])
    · intro c a h
      cases hfc : fit c0 with
      | none =>
        simp only [search_best, hfc] at h
        obtain ⟨hf, hmin, l1, l2, heq, hl1⟩ := ih.2 c a h
        refine ⟨hf, ?_, c0 :: l1, l2, by simp [heq], ?_⟩
        · intro c' hc' a' ha'
          rcases List.mem_cons.mp hc' with rfl | hc'
          · exact absurd ha' (hfc ▸ Option.noConfusion)
          · exact hmin c' hc' a' ha'
        · intro c' hc' a' ha'
          rcases List.mem_cons.mp hc' with rfl | hc'
          · exact absurd ha' (hfc ▸ Option.noConfusion)
          · exact hl1 c' hc' a' ha'
      | some a0 =>
        simp only [search_best, hfc] at h
        rcases search_best_acc_characterization fit rest (c0, a0) (c, a) h with
          ⟨hrb, hall⟩ | ⟨hf, hlt, l1, l2, heq, h1, h2⟩
        · injection hrb with hc ha
          subst hc
          subst ha
          refine ⟨hfc, ?_, [], rest, rfl, by simp⟩
          intro c' hc' a' ha'
          rcases List.mem_cons.mp hc' with rfl | hc'
          · rw [hfc] at ha'
            injection ha' with ha'
            exact ha' ▸ le_refl a
          · exact hall c' hc' a' ha'
        · refine ⟨hf, ?_, c0 :: l1, l2, by simp [heq], ?_⟩
          · intro c' hc' a' ha'
            rcases List.mem_cons.mp hc' with rfl | hc'
            · rw [hfc] at ha'
              injection ha' with ha'
              exact ha' ▸ le_of_lt hlt
            · rcases (List.mem_append.mp (heq ▸ hc')) with hm | hm
              · exact le_of_lt (h1 c' hm a' ha')
              · rcases List.mem_cons.mp hm with rfl | hm
                · rw [hf] at ha'
                  injection ha' with ha'
                  exact ha' ▸ le_refl a
                · exact h2 c' hm a' ha'
          · intro c' hc' a' ha'
            rcases List.mem_cons.mp hc' with rfl | hc'
            · rw [hfc] at ha'
              injection ha' with ha'
              exact ha' ▸ hlt
            · exact h1 c' hc' a' ha'

theorem c7_witness :
    (fun c : ArimaOrder => if c.1 = 0 ∧ c.2.2 = 0 then some (5 : ℚ) else some 3) (1, 0, 0) =
      some 3 :=
  ((c7_min_aic_first_found
    (fun c : ArimaOrder => if c.1 = 0 ∧ c.2.2 = 0 then some (5 : ℚ) else some 3)
    [(0, 0, 0), (1, 0, 0), (0, 0, 1), (1, 0, 1), (2, 0, 0), (0, 0, 2)]).2 (1, 0, 0) 3
    (by norm_num [search_best])).1
